import Mathlib

/-!
A verification development for the tagfd kernel module (tagfd.c) and its
shared header (tagfd-shared.h).  The C sources are embedded shallowly:
kernel state (the tag registry, the per-tag value cells, the per-session
watcher state, the master-device availability counter) becomes explicit
Lean state that each modelled file operation transforms, and the C integer
types become Nat/Int (uint64 arithmetic is reduced mod 2^64 where the C
code can wrap).  Interactions with the host environment
(copy_from_user / copy_to_user faults, the wall clock) are explicit
parameters of the modelled operations.
-/

namespace Tagfd

/-! ## Constants from tagfd-shared.h -/

def TAG_NAME_LENGTH : Nat := 256
def TAG_STRING_VALUE_LENGTH : Nat := 16

def DT_INVALID : Nat := 0
def DT_INT8 : Nat := 2
def DT_UINT8 : Nat := 3
def DT_INT16 : Nat := 4
def DT_UINT16 : Nat := 5
def DT_INT32 : Nat := 6
def DT_UINT32 : Nat := 7
def DT_INT64 : Nat := 8
def DT_UINT64 : Nat := 9
def DT_REAL32 : Nat := 10
def DT_REAL64 : Nat := 11
def DT_TIMESTAMP : Nat := 12
def DT_STRING : Nat := 13

def QUALITY_UNCERTAIN : Nat := 0x0000
def QUALITY_DISCONNECTED : Nat := 0x8000
def QUALITY_BAD : Nat := 0x4000
def QUALITY_GOOD : Nat := 0xC000

/-- `sizeof(tag_t)`: the 16-byte `tagvalue_t` union (alignment 8), an
8-byte `timestamp_t`, a 2-byte `quality`, a 1-byte `dtype`, padded from 27
to the struct's natural alignment of 8, hence 32 bytes. -/
def sizeof_tag_t : Nat := 32

/-- `sizeof(struct tag_config)`: `uint8 action`, `uint8 dtype`,
`char name[256]`, no padding needed (alignment 1), hence 258 bytes. -/
def sizeof_tag_config : Nat := 258

/-! ## Linux errno values and poll masks used by tagfd.c -/

def EPERM : Int := 1
def EAGAIN : Int := 11
def ENOMEM : Int := 12
def EFAULT : Int := 14
def EBUSY : Int := 16
def EEXIST : Int := 17
def EINVAL : Int := 22

def POLLIN : Nat := 0x001
def POLLOUT : Nat := 0x004
def POLLRDNORM : Nat := 0x040
def POLLWRNORM : Nat := 0x100

/-- The readable readiness bits reported by `tagfd_poll`. -/
def READABLE : Nat := POLLIN ||| POLLRDNORM

/-- The writable readiness bits reported by `tagfd_poll`. -/
def WRITABLE : Nat := POLLOUT ||| POLLWRNORM

/-! ## The exchanged value record (`tag_t`) -/

/-- `tag_t` from tagfd-shared.h.  The 16-byte `tagvalue_t` union is kept
at byte level (`value` lists its 16 bytes), since the kernel module only
ever copies it wholesale. -/
structure tag_t where
  value : List Nat
  timestamp : Nat
  quality : Nat
  dtype : Nat
  deriving Repr, DecidableEq

/-! ## Per-tag session operations (tagfd_open / read / write / poll)

A `struct tag_watcher` holds a pointer to the tag context and a
`ts_lastRead` timestamp; the tag context holds the current `tag_t`.
The operations below act on the watcher's `ts_lastRead` and the cell's
stored record, exactly as the C functions do under the context mutex. -/

/-- `tagfd_open` allocates a watcher with `ts_lastRead = 0`. -/
def tagfd_open_ts_lastRead : Nat := 0

/-- Outcome of `tagfd_read`: an errno, a suspension in
`wait_event_interruptible` (blocking mode with no new value), or a
successful transfer of the stored record together with the return value. -/
inductive ReadResult
  | err (errno : Int)
  | wouldBlock
  | ok (transferred : tag_t) (ret : Nat)
  deriving Repr, DecidableEq

/-- `tagfd_read` from tagfd.c.  `cell` is the stored record of the
watcher's tag context, `ts_lastRead` the watcher state, `count` the user
buffer size, `nonblocking` the `O_NONBLOCK` flag, and `copyOk` whether
`copy_to_user` succeeds.  Returns the outcome and the new `ts_lastRead`. -/
def tagfd_read (cell : tag_t) (ts_lastRead : Nat) (count : Nat)
    (nonblocking : Bool) (copyOk : Bool) : ReadResult × Nat :=
  if count < sizeof_tag_t then (.err (-EINVAL), ts_lastRead)
  else if ts_lastRead = cell.timestamp then
    if nonblocking then (.err (-EAGAIN), ts_lastRead)
    else (.wouldBlock, ts_lastRead)
  else if copyOk then (.ok cell sizeof_tag_t, cell.timestamp)
  else (.err (-EFAULT), ts_lastRead)

/-- `tagfd_write` from tagfd.c.  `cell` is the stored record, `count` the
user buffer size, and `transfer` the record fetched by `copy_from_user`
(`none` models a transfer fault).  Returns the C return value and the new
stored record. -/
def tagfd_write (cell : tag_t) (count : Nat) (transfer : Option tag_t) :
    Int × tag_t :=
  if count < sizeof_tag_t then (-EINVAL, cell)
  else
    match transfer with
    | none => (-EFAULT, cell)
    | some tmp =>
      if cell.dtype ≠ tmp.dtype then (-EPERM, cell)
      else if tmp.timestamp ≤ cell.timestamp then (-EINVAL, cell)
      else ((sizeof_tag_t : Int), tmp)

/-- `tagfd_poll` from tagfd.c: the readiness mask for a watcher. -/
def tagfd_poll (cell : tag_t) (ts_lastRead : Nat) : Nat :=
  let mask : Nat := 0
  let mask := if ts_lastRead ≠ cell.timestamp then mask ||| POLLIN ||| POLLRDNORM else mask
  mask ||| POLLOUT ||| POLLWRNORM

/-! ## C strings and names

Names travel as byte arrays in C.  They are modelled as `List Char`
(everything compared is 7-bit ASCII); a `char[n]` buffer is a list of
length `n` whose C-string content is its longest NUL-free prefix. -/

/-- The NUL character terminating C strings. -/
def NUL : Char := Char.ofNat 0

/-- The C-string content of a buffer: its longest NUL-free prefix. -/
def cstr (l : List Char) : List Char := l.takeWhile (fun c => c ≠ NUL)

/-- `strlen` on a buffer holding a NUL-terminated string. -/
def cstrlen (l : List Char) : Nat := (cstr l).length

/-- `strncmp(a, b, n) == 0` for NUL-free strings `a`, `b` (the only
strings tagfd compares): the comparison stops at the `n`-th byte or at
the first terminator, so it succeeds exactly when the length-`n`
prefixes coincide. -/
def strncmpEq (a b : List Char) (n : Nat) : Bool := a.take n == b.take n

/-- `validTagNameChars` from tagfd.c (the `strchr` set). -/
def validTagNameChars : List Char :=
  "abcdefghijklmnopqrstuvwxyzABCDEFGHIJKLMNOPQRSTUVWXYZ0123456789.-_".toList

/-- One byte passes the `strchr(validTagNameChars, c)` test. -/
def validNameChar (c : Char) : Bool := validTagNameChars.contains c

/-- `PREFIX` from tagfd.c: the device-name prefix `"tagfd!"` that
`tagfd_masterWrite` puts in front of the requested tag name before
storing it in the tag context. -/
def PFX : List Char := "tagfd!".toList

/-- `sizeof(gl_newNameBuffer)` = `sizeof(struct tag_config) + 100`. -/
def sizeof_newNameBuffer : Nat := sizeof_tag_config + 100

/-- Normalize a modelled `name` field of `struct tag_config` to the 256
bytes the fixed C buffer actually holds (`char name[TAG_NAME_LENGTH]`). -/
def fixName (l : List Char) : List Char :=
  (l ++ List.replicate TAG_NAME_LENGTH NUL).take TAG_NAME_LENGTH

/-! ## Registry state and the master device -/

/-- `struct tag_config` from tagfd-shared.h: the creation request.
`name` stands for the 256-byte `char name[TAG_NAME_LENGTH]` field. -/
structure tag_config where
  action : Char
  dtype : Nat
  name : List Char
  deriving Repr, DecidableEq

/-- `struct tag_ctx`, restricted to the fields the modelled operations
touch: the stored record and the stored (prefixed) device name. -/
structure tag_ctx where
  tag : tag_t
  name : List Char
  deriving Repr, DecidableEq

/-- The module-level registry state: the `max_tags` parameter and
`gl_tags[0 .. gl_nEntities)` in insertion order (`gl_nEntities` is
`gl_tags.length`). -/
structure ModuleState where
  max_tags : Nat
  gl_tags : List tag_ctx
  deriving Repr, DecidableEq

/-- The registry state right after `tagfd_init`: no tags yet. -/
def initState (max_tags : Nat) : ModuleState :=
  { max_tags := max_tags, gl_tags := [] }

/-- `tagfd_isNameTaken` from tagfd.c: `namelen` is clamped to
`TAG_STRING_VALUE_LENGTH` and each stored `gl_tags[i].name` (which
begins with the `"tagfd!"` prefix) is compared to `name` with
`strncmp` over `namelen` bytes. -/
def tagfd_isNameTaken (gl_tags : List tag_ctx) (name : List Char) (namelen : Nat) : Bool :=
  let namelen := if namelen > TAG_STRING_VALUE_LENGTH then TAG_STRING_VALUE_LENGTH else namelen
  gl_tags.any (fun t => strncmpEq t.name name namelen)

/-- The switch over `econf->dtype` in `tagfd_masterWrite` accepts
exactly the twelve `DT_*` discriminants (2 through 13). -/
def validDtype (d : Nat) : Bool :=
  d = DT_INT8 ∨ d = DT_UINT8 ∨ d = DT_INT16 ∨ d = DT_UINT16 ∨
  d = DT_INT32 ∨ d = DT_UINT32 ∨ d = DT_INT64 ∨ d = DT_UINT64 ∨
  d = DT_REAL32 ∨ d = DT_REAL64 ∨ d = DT_TIMESTAMP ∨ d = DT_STRING

/-- `ent.timestamp = ts.tv_sec; *= 1000; += ts.tv_nsec/1000000` in
`tagfd_masterWrite`: milliseconds since the epoch, computed in the
64-bit unsigned `timestamp_t`. -/
def msSinceEpoch (tv_sec tv_nsec : Nat) : Nat :=
  (tv_sec * 1000 + tv_nsec / 1000000) % 2 ^ 64

/-- The distinct failure exits of `tagfd_masterWrite`, one constructor
per `return` site, in source order. -/
inductive CreateError
  | countTooSmall
  | transferFault
  | invalidAction
  | capacityExhausted
  | dtypeInvalid
  | nameNotTerminated
  | nameEmpty
  | nameBadChar
  | nameTaken
  | snprintfFailed
  deriving Repr, DecidableEq

deriving instance DecidableEq for Except

/-- The byte `econf->name[TAG_NAME_LENGTH - 1]` that the
null-termination check of `tagfd_masterWrite` reads. -/
def nameLastByte (l : List Char) : Char := l.getD (TAG_NAME_LENGTH - 1) NUL

/-- The errno each failure exit of `tagfd_masterWrite` returns
(negated, as the C function returns it). -/
def CreateError.errno : CreateError → Int
  | .countTooSmall => -EINVAL
  | .transferFault => -EFAULT
  | .invalidAction => -EINVAL
  | .capacityExhausted => -ENOMEM
  | .dtypeInvalid => -EINVAL
  | .nameNotTerminated => -EINVAL
  | .nameEmpty => -EINVAL
  | .nameBadChar => -EINVAL
  | .nameTaken => -EEXIST
  | .snprintfFailed => -(131 : Int)

/-- `tagfd_masterWrite` from tagfd.c: the tag-creation request handler.
`tv_sec`/`tv_nsec` are the `getnstimeofday` clock, `count` the user
write size, and `transfer` the fetched `struct tag_config` (`none`
models a `copy_from_user` fault).  On success the C function returns
`sizeof(struct tag_config)` and appends the new context at
`gl_tags[gl_nEntities]` (identity slot `gl_nEntities`, device minor
`gl_nEntities + 1`); the stored name is the `snprintf` of `PREFIX` and
the requested name, truncated by `strncpy` to `TAG_NAME_LENGTH - 1`
bytes.  The `tagfd_construct_tag` host failure paths (`cdev_add` /
`device_create`) are modelled as succeeding. -/
def tagfd_masterWrite (st : ModuleState) (tv_sec tv_nsec : Nat) (count : Nat)
    (transfer : Option tag_config) : Except CreateError Nat × ModuleState :=
  let ts := msSinceEpoch tv_sec tv_nsec
  if count < sizeof_tag_config then (.error .countTooSmall, st)
  else
    match transfer with
    | none => (.error .transferFault, st)
    | some econf0 =>
      let nm := fixName econf0.name
      if econf0.action ≠ '+' then (.error .invalidAction, st)
      else if st.gl_tags.length = st.max_tags then (.error .capacityExhausted, st)
      else if ¬ validDtype econf0.dtype then (.error .dtypeInvalid, st)
      else if nameLastByte nm ≠ NUL then (.error .nameNotTerminated, st)
      else
        let namelen := cstrlen nm
        if namelen = 0 then (.error .nameEmpty, st)
        else if ¬ (cstr nm).all validNameChar then (.error .nameBadChar, st)
        else if tagfd_isNameTaken st.gl_tags (cstr nm) namelen then (.error .nameTaken, st)
        else
          let newName := PFX ++ cstr nm
          if newName.length = sizeof_newNameBuffer then (.error .snprintfFailed, st)
          else
            let ent : tag_t :=
              { value := List.replicate TAG_STRING_VALUE_LENGTH 0
                timestamp := ts
                quality := QUALITY_UNCERTAIN
                dtype := econf0.dtype }
            (.ok sizeof_tag_config,
             { st with gl_tags := st.gl_tags ++
                 [{ tag := ent, name := newName.take (TAG_NAME_LENGTH - 1) }] })

/-- The freshly initialized tag context a successful `tagfd_masterWrite`
installs: zeroed payload, creation-clock timestamp, quality UNCERTAIN,
the requested dtype, and the prefixed device name (truncated by
`strncpy` to `TAG_NAME_LENGTH - 1` bytes). -/
def newCtx (tv_sec tv_nsec : Nat) (econf0 : tag_config) : tag_ctx :=
  { tag := { value := List.replicate TAG_STRING_VALUE_LENGTH 0
             timestamp := msSinceEpoch tv_sec tv_nsec
             quality := QUALITY_UNCERTAIN
             dtype := econf0.dtype }
    name := (PFX ++ cstr (fixName econf0.name)).take (TAG_NAME_LENGTH - 1) }

/-! ## The master device open/close (admin exclusivity) -/

/-- `tagfd_masterOpen` from tagfd.c: `atomic_dec_and_test` on
`gl_masterAvailable`; if the decremented counter is nonzero the open
re-increments it and fails `-EBUSY`.  Returns the new counter and the C
return value. -/
def tagfd_masterOpen (gl_masterAvailable : Int) : Int × Int :=
  let v := gl_masterAvailable - 1
  if v ≠ 0 then (v + 1, -EBUSY) else (v, 0)

/-- `tagfd_masterRelease` from tagfd.c: re-increment the counter. -/
def tagfd_masterRelease (gl_masterAvailable : Int) : Int :=
  gl_masterAvailable + 1

/-- The administrative channel state: the `gl_masterAvailable` counter
together with the number of currently open master-device sessions (the
open file handles, a quantity the kernel tracks for us). -/
structure AdminState where
  avail : Int
  held : Nat
  deriving Repr, DecidableEq

/-- `ATOMIC_INIT(1)` and no session at module load. -/
def adminInit : AdminState := { avail := 1, held := 0 }

/-- The events the administrative channel undergoes: an open attempt
(succeeding or failing as `tagfd_masterOpen` decides) and a close of an
existing session (`tagfd_masterRelease`). -/
inductive AdminStep : AdminState → AdminState → Prop
  | openOk (s : AdminState) : (tagfd_masterOpen s.avail).2 = 0 →
      AdminStep s { avail := (tagfd_masterOpen s.avail).1, held := s.held + 1 }
  | openBusy (s : AdminState) : (tagfd_masterOpen s.avail).2 ≠ 0 →
      AdminStep s { avail := (tagfd_masterOpen s.avail).1, held := s.held }
  | close (s : AdminState) : 0 < s.held →
      AdminStep s { avail := tagfd_masterRelease s.avail, held := s.held - 1 }

/-- States of the administrative channel reachable from module load. -/
def AdminReachable (s : AdminState) : Prop :=
  Relation.ReflTransGen AdminStep adminInit s

/-! ## The whole-module transition system (creations and tag writes) -/

/-- The registry after a `tagfd_write` issued through a watcher bound to
`gl_tags[i]`: that context's stored record becomes the write's result,
everything else is untouched. -/
def applyTagWrite (st : ModuleState) (i : Nat) (hi : i < st.gl_tags.length)
    (count : Nat) (transfer : Option tag_t) : ModuleState :=
  let ctx := st.gl_tags.get ⟨i, hi⟩
  { st with gl_tags :=
      st.gl_tags.set i { ctx with tag := (tagfd_write ctx.tag count transfer).2 } }

/-- The registry-affecting events of the module: a master-device write
(tag creation attempt, at a clock instant whose millisecond value is
nonzero) and a write on some tag's device.  Reads and polls do not
change the registry. -/
inductive SysStep : ModuleState → ModuleState → Prop
  | admin (st : ModuleState) (tv_sec tv_nsec count : Nat) (transfer : Option tag_config) :
      0 < msSinceEpoch tv_sec tv_nsec →
      SysStep st (tagfd_masterWrite st tv_sec tv_nsec count transfer).2
  | tagWrite (st : ModuleState) (i count : Nat) (transfer : Option tag_t)
      (hi : i < st.gl_tags.length) :
      SysStep st (applyTagWrite st i hi count transfer)

/-- Registry states reachable from module load (any `max_tags`). -/
def SysReachable (st : ModuleState) : Prop :=
  ∃ max_tags, Relation.ReflTransGen SysStep (initState max_tags) st

/-- Timestamps of all live tags are strictly positive. -/
def tsPos (st : ModuleState) : Prop :=
  ∀ ctx ∈ st.gl_tags, 0 < ctx.tag.timestamp

/-! ## Concrete sample inputs for witnesses and counterexamples -/

/-- A creation request's `name` buffer holding the string `s`. -/
def mkName (s : String) : List Char := fixName s.toList

/-- A concrete `struct tag_config`. -/
def mkReq (a : Char) (d : Nat) (s : String) : tag_config :=
  { action := a, dtype := d, name := mkName s }

def reqX : tag_config := mkReq '+' DT_INT32 "x"
def reqT : tag_config := mkReq '+' DT_INT32 "t"
def reqBadBoth : tag_config := mkReq '+' DT_INVALID "a b"
def reqEmptyBad : tag_config := mkReq '+' DT_INVALID ""

/-- The registry after creating tag `x` in a fresh 64-slot registry at
clock second 1. -/
def st1 : ModuleState :=
  (tagfd_masterWrite (initState 64) 1 0 sizeof_tag_config (some reqX)).2

/-- A full registry: one tag created in a 1-slot registry. -/
def stCap : ModuleState :=
  (tagfd_masterWrite (initState 1) 1 0 sizeof_tag_config (some reqX)).2

/-- The tag context that creating `x` at clock second 1 installs. -/
def ctxX : tag_ctx :=
  { tag := { value := List.replicate TAG_STRING_VALUE_LENGTH 0
             timestamp := msSinceEpoch 1 0
             quality := QUALITY_UNCERTAIN
             dtype := DT_INT32 }
    name := "tagfd!x".toList }

/-- Scenario S4's tag `V`: stored timestamp 5000, dtype UINT32. -/
def cellV : tag_t :=
  { value := List.replicate TAG_STRING_VALUE_LENGTH 0
    timestamp := 5000
    quality := QUALITY_GOOD
    dtype := DT_UINT32 }

/-- A candidate record for `V` carrying timestamp `ts`. -/
def candV (ts : Nat) : tag_t :=
  { value := 7 :: List.replicate (TAG_STRING_VALUE_LENGTH - 1) 0
    timestamp := ts
    quality := QUALITY_GOOD
    dtype := DT_UINT32 }

/-- Scenario S3's tag `U`: dtype REAL64. -/
def cellU : tag_t :=
  { value := List.replicate TAG_STRING_VALUE_LENGTH 0
    timestamp := 4000
    quality := QUALITY_GOOD
    dtype := DT_REAL64 }

/-- An INT32 candidate record aimed at `U`. -/
def candU : tag_t :=
  { value := 5 :: List.replicate (TAG_STRING_VALUE_LENGTH - 1) 0
    timestamp := 6000
    quality := QUALITY_GOOD
    dtype := DT_INT32 }

/-! ## Theorems -/

/-- Claim C4: for a write whose candidate matches the stored dtype, a
candidate timestamp less than or equal to the stored one fails with the
stale-timestamp error (`-EINVAL`) and leaves the stored record
unchanged, while a strictly greater candidate timestamp succeeds,
overwrites the stored record in full and returns the record size. -/
theorem tagfd_write_timestamp_gate (cell tmp : tag_t) (count : Nat)
    (hcount : sizeof_tag_t ≤ count) (hdt : tmp.dtype = cell.dtype) :
    (tmp.timestamp ≤ cell.timestamp →
      tagfd_write cell count (some tmp) = (-EINVAL, cell)) ∧
    (cell.timestamp < tmp.timestamp →
      tagfd_write cell count (some tmp) = ((sizeof_tag_t : Int), tmp)) := by
  have h1 : ¬ count < sizeof_tag_t := Nat.not_lt.mpr hcount
  have h2 : ¬ cell.dtype ≠ tmp.dtype := by simp [hdt]
  constructor
  · intro h
    simp [tagfd_write, h1, h2, h]
  · intro h
    simp [tagfd_write, h1, h2, Nat.not_le.mpr h]

/-- Claim C4 witness, scenario S4: tag `V` has stored timestamp 5000; a
write with timestamp 5000 fails, one with 4999 fails, one with 5001
succeeds. -/
theorem tagfd_write_timestamp_gate_example :
    tagfd_write cellV sizeof_tag_t (some (candV 5000)) = (-EINVAL, cellV) ∧
    tagfd_write cellV sizeof_tag_t (some (candV 4999)) = (-EINVAL, cellV) ∧
    tagfd_write cellV sizeof_tag_t (some (candV 5001)) =
      ((sizeof_tag_t : Int), candV 5001) :=
  ⟨(tagfd_write_timestamp_gate cellV (candV 5000) sizeof_tag_t (by decide) rfl).1
      (by decide),
   (tagfd_write_timestamp_gate cellV (candV 4999) sizeof_tag_t (by decide) rfl).1
      (by decide),
   (tagfd_write_timestamp_gate cellV (candV 5001) sizeof_tag_t (by decide) rfl).2
      (by decide)⟩

/-- Claim C5: a write whose candidate dtype differs from the stored
dtype fails with the type-mismatch error (`-EPERM`), and every failed
write (negative return: buffer too small, transfer fault, type
mismatch, or stale timestamp) leaves the stored record exactly
unchanged. -/
theorem tagfd_write_type_and_no_partial (cell : tag_t) (count : Nat)
    (transfer : Option tag_t) :
    (∀ tmp, transfer = some tmp → sizeof_tag_t ≤ count → tmp.dtype ≠ cell.dtype →
      (tagfd_write cell count transfer).1 = -EPERM) ∧
    ((tagfd_write cell count transfer).1 < 0 →
      (tagfd_write cell count transfer).2 = cell) := by
  constructor
  · rintro tmp rfl hcount hdt
    simp only [tagfd_write]
    rw [if_neg (Nat.not_lt.mpr hcount), if_pos (Ne.symm hdt)]
  · intro hr
    rcases transfer with _ | tmp
    · simp only [tagfd_write] at hr ⊢
      split_ifs at hr ⊢ <;> rfl
    · simp only [tagfd_write] at hr ⊢
      split_ifs at hr ⊢ <;>
        first
          | rfl
          | exact absurd hr (by norm_num [sizeof_tag_t])

/-- Claim C5 witness, scenario S3: tag `U` is REAL64; a write with an
INT32 candidate returns `-EPERM` and leaves `U` unchanged. -/
theorem tagfd_write_type_and_no_partial_example :
    (tagfd_write cellU sizeof_tag_t (some candU)).1 = -EPERM ∧
    (tagfd_write cellU sizeof_tag_t (some candU)).2 = cellU := by
  have h := tagfd_write_type_and_no_partial cellU sizeof_tag_t (some candU)
  exact ⟨h.1 candU rfl (by decide) (by decide),
         h.2 (by rw [h.1 candU rfl (by decide) (by decide)]; decide)⟩

/-- Claim C6: a read with a buffer smaller than one record fails with
`-EINVAL`; otherwise a nonblocking read returns `-EAGAIN` exactly when
the watcher's `ts_lastRead` equals the stored timestamp; otherwise (any
mode, successful transfer) it copies the full stored record, advances
`ts_lastRead` to the stored timestamp, and returns the record size. -/
theorem tagfd_read_contract (cell : tag_t) (ts_lastRead count : Nat)
    (nonblocking copyOk : Bool) :
    (count < sizeof_tag_t →
      tagfd_read cell ts_lastRead count nonblocking copyOk =
        (.err (-EINVAL), ts_lastRead)) ∧
    (sizeof_tag_t ≤ count →
      ((tagfd_read cell ts_lastRead count true copyOk).1 = .err (-EAGAIN) ↔
        ts_lastRead = cell.timestamp)) ∧
    (sizeof_tag_t ≤ count → ts_lastRead ≠ cell.timestamp →
      tagfd_read cell ts_lastRead count nonblocking true =
        (.ok cell sizeof_tag_t, cell.timestamp)) := by
  refine ⟨fun h => ?_, fun h => ?_, fun h hne => ?_⟩
  · simp [tagfd_read, h]
  · constructor
    · intro hr
      by_contra hne
      rcases hcopy : copyOk with _ | _ <;>
        simp [tagfd_read, Nat.not_lt.mpr h, hne, hcopy, EFAULT, EAGAIN] at hr
    · intro he
      simp [tagfd_read, Nat.not_lt.mpr h, he]
  · simp [tagfd_read, Nat.not_lt.mpr h, hne]

/-- Claim C6 witness: with stored timestamp 5000 and buffer size 32, a
nonblocking read at `ts_lastRead = 5000` yields `-EAGAIN`, and a read at
`ts_lastRead = 0` returns the record and advances the watcher. -/
theorem tagfd_read_contract_example :
    ((tagfd_read cellV 5000 sizeof_tag_t true true).1 = .err (-EAGAIN)) ∧
    (tagfd_read cellV 0 sizeof_tag_t true true =
      (.ok cellV sizeof_tag_t, cellV.timestamp)) :=
  ⟨((tagfd_read_contract cellV 5000 sizeof_tag_t true true).2.1 (by decide)).mpr rfl,
   (tagfd_read_contract cellV 0 sizeof_tag_t true true).2.2 (by decide) (by decide)⟩

/-- Claim C7: the poll mask contains the readable bits exactly when the
watcher's `ts_lastRead` differs from the stored timestamp, and always
contains the writable bits. -/
theorem tagfd_poll_readiness (cell : tag_t) (ts_lastRead : Nat) :
    ((tagfd_poll cell ts_lastRead) &&& READABLE = READABLE ↔
      ts_lastRead ≠ cell.timestamp) ∧
    (tagfd_poll cell ts_lastRead) &&& WRITABLE = WRITABLE := by
  by_cases h : ts_lastRead = cell.timestamp <;>
    simp only [tagfd_poll, h, ne_eq, not_true_eq_false, not_false_eq_true,
      ite_true, ite_false] <;>
    exact ⟨by decide, by decide⟩

/-- Claim C7 witness: at `ts_lastRead = 0` against stored timestamp 5000
the mask contains the readable and writable bits; at `ts_lastRead =
5000` it lacks the readable bits. -/
theorem tagfd_poll_readiness_example :
    (tagfd_poll cellV 0) &&& READABLE = READABLE ∧
    (tagfd_poll cellV 0) &&& WRITABLE = WRITABLE ∧
    ¬ ((tagfd_poll cellV 5000) &&& READABLE = READABLE) :=
  ⟨(tagfd_poll_readiness cellV 0).1.mpr (by decide),
   (tagfd_poll_readiness cellV 0).2,
   fun h => absurd ((tagfd_poll_readiness cellV 5000).1.mp h) (by decide)⟩

/-- Claim C1 is false of the code (code bug): with one tag created under
the requested name `x`, a creation request for the fresh, valid name `t`
below capacity is rejected with the name-taken error (`-EEXIST`),
because `tagfd_isNameTaken` compares the request name against the stored
device names — which carry the `"tagfd!"` prefix — over only
`strlen(request)` bytes, and `t` matches the first byte of `tagfd!x`.
The other conjuncts exhibit that the registry holds exactly one tag,
stored as `tagfd!x`, and that the requested names `t` and `x` differ, so
no live tag is named `t`. -/
theorem tagfd_isNameTaken_spurious_rejection :
    (tagfd_masterWrite st1 1 0 sizeof_tag_config (some reqT)).1 =
      Except.error CreateError.nameTaken ∧
    CreateError.nameTaken.errno = -EEXIST ∧
    st1.gl_tags.map (fun c => c.name) = ["tagfd!x".toList] ∧
    cstr reqT.name ≠ cstr reqX.name := by
  decide

/-- Claim C2 counterexample: a creation request with an empty name and
an invalid dtype, submitted while the registry is at capacity, fails
with the capacity error (`-ENOMEM`), not with a name error (`-EINVAL`):
`tagfd_masterWrite` checks capacity before it looks at the dtype or the
name at all. -/
theorem tagfd_masterWrite_capacity_before_name :
    (tagfd_masterWrite stCap 1 0 sizeof_tag_config (some reqEmptyBad)).1 =
      Except.error CreateError.capacityExhausted ∧
    stCap.gl_tags.length = stCap.max_tags ∧
    CreateError.capacityExhausted.errno = -ENOMEM ∧
    CreateError.nameEmpty.errno = -EINVAL := by
  decide

/-- Claim C2 (amended): when a creation request violates several
validation conditions, the error returned is the one for the first
violated condition in the source order: action byte is `+`, registry
below capacity, dtype in the closed set, name null-terminated, name
non-empty, name drawn from the allowed character set, name not already
matched as taken.  In particular a request with an invalid or empty name
at capacity fails with the capacity error, and a request with both an
invalid name and an invalid dtype fails with the dtype error. -/
theorem tagfd_masterWrite_error_priority (st : ModuleState)
    (tv_sec tv_nsec count : Nat) (econf0 : tag_config)
    (hcount : sizeof_tag_config ≤ count) :
    (econf0.action ≠ '+' →
      (tagfd_masterWrite st tv_sec tv_nsec count (some econf0)).1 =
        .error .invalidAction) ∧
    (econf0.action = '+' → st.gl_tags.length = st.max_tags →
      (tagfd_masterWrite st tv_sec tv_nsec count (some econf0)).1 =
        .error .capacityExhausted) ∧
    (econf0.action = '+' → st.gl_tags.length ≠ st.max_tags →
      validDtype econf0.dtype = false →
      (tagfd_masterWrite st tv_sec tv_nsec count (some econf0)).1 =
        .error .dtypeInvalid) ∧
    (econf0.action = '+' → st.gl_tags.length ≠ st.max_tags →
      validDtype econf0.dtype = true →
      nameLastByte (fixName econf0.name) ≠ NUL →
      (tagfd_masterWrite st tv_sec tv_nsec count (some econf0)).1 =
        .error .nameNotTerminated) ∧
    (econf0.action = '+' → st.gl_tags.length ≠ st.max_tags →
      validDtype econf0.dtype = true →
      nameLastByte (fixName econf0.name) = NUL →
      cstrlen (fixName econf0.name) = 0 →
      (tagfd_masterWrite st tv_sec tv_nsec count (some econf0)).1 =
        .error .nameEmpty) ∧
    (econf0.action = '+' → st.gl_tags.length ≠ st.max_tags →
      validDtype econf0.dtype = true →
      nameLastByte (fixName econf0.name) = NUL →
      cstrlen (fixName econf0.name) ≠ 0 →
      (cstr (fixName econf0.name)).all validNameChar = false →
      (tagfd_masterWrite st tv_sec tv_nsec count (some econf0)).1 =
        .error .nameBadChar) ∧
    (econf0.action = '+' → st.gl_tags.length ≠ st.max_tags →
      validDtype econf0.dtype = true →
      nameLastByte (fixName econf0.name) = NUL →
      cstrlen (fixName econf0.name) ≠ 0 →
      (cstr (fixName econf0.name)).all validNameChar = true →
      tagfd_isNameTaken st.gl_tags (cstr (fixName econf0.name))
        (cstrlen (fixName econf0.name)) = true →
      (tagfd_masterWrite st tv_sec tv_nsec count (some econf0)).1 =
        .error .nameTaken) := by
  have hc : ¬ count < sizeof_tag_config := Nat.not_lt.mpr hcount
  refine ⟨?_, ?_, ?_, ?_, ?_, ?_, ?_⟩
  · intro h1
    simp [tagfd_masterWrite, hc, h1]
  · intro h1 h2
    simp [tagfd_masterWrite, hc, h1, h2]
  · intro h1 h2 h3
    simp [tagfd_masterWrite, hc, h1, h2, h3]
  · intro h1 h2 h3 h4
    simp [tagfd_masterWrite, hc, h1, h2, h3, h4]
  · intro h1 h2 h3 h4 h5
    simp [tagfd_masterWrite, hc, h1, h2, h3, h4, h5]
  · intro h1 h2 h3 h4 h5 h6
    simp [tagfd_masterWrite, hc, h1, h2, h3, h4, h5, h6]
  · intro h1 h2 h3 h4 h5 h6 h7
    simp [tagfd_masterWrite, hc, h1, h2, h3, h4, h5, h6, h7]

/-- Claim C2 witness: a request with an invalid name (`a b`) and an
invalid dtype (0) in a fresh registry fails with the dtype error. -/
theorem tagfd_masterWrite_error_priority_example :
    (tagfd_masterWrite (initState 64) 1 0 sizeof_tag_config (some reqBadBoth)).1 =
      .error .dtypeInvalid :=
  (tagfd_masterWrite_error_priority (initState 64) 1 0 sizeof_tag_config
      reqBadBoth (by decide)).2.2.1 rfl (by decide) (by decide)

set_option maxHeartbeats 1000000 in
/-- Claim C9: every successful tag creation returns the size of the
creation record and installs at the next identity slot (the end of the
insertion-ordered registry) a tag whose stored record has the requested
dtype, an all-zero payload, quality `QUALITY_UNCERTAIN`, and timestamp
equal to the creation clock in milliseconds since the Unix epoch. -/
theorem tagfd_create_success_shape (st : ModuleState)
    (tv_sec tv_nsec count : Nat) (econf0 : tag_config) (n : Nat)
    (h : (tagfd_masterWrite st tv_sec tv_nsec count (some econf0)).1 = .ok n) :
    n = sizeof_tag_config ∧
    (tagfd_masterWrite st tv_sec tv_nsec count (some econf0)).2.gl_tags =
      st.gl_tags ++
        [{ tag := { value := List.replicate TAG_STRING_VALUE_LENGTH 0
                    timestamp := msSinceEpoch tv_sec tv_nsec
                    quality := QUALITY_UNCERTAIN
                    dtype := econf0.dtype }
           name := (PFX ++ cstr (fixName econf0.name)).take
             (TAG_NAME_LENGTH - 1) }] := by
  simp only [tagfd_masterWrite] at h ⊢
  split_ifs at h ⊢
  exact ⟨(Except.ok.inj h).symm, rfl⟩

/-- Claim C9 witness: creating `x` at clock second 1 in a fresh registry
installs exactly the context `ctxX` (dtype INT32, zero payload, quality
UNCERTAIN, timestamp 1000 ms). -/
theorem tagfd_create_success_shape_example : st1.gl_tags = [ctxX] := by
  have h := (tagfd_create_success_shape (initState 64) 1 0 sizeof_tag_config
      reqX sizeof_tag_config (by decide)).2
  show (tagfd_masterWrite (initState 64) 1 0 sizeof_tag_config
      (some reqX)).2.gl_tags = [ctxX]
  rw [h]
  decide

/-- Characterization of `tagfd_masterOpen`: from a counter of 1 the open
succeeds and leaves 0; from any other counter it fails `-EBUSY` and
restores the counter. -/
theorem tagfd_masterOpen_spec (v : Int) :
    (v = 1 → tagfd_masterOpen v = (0, 0)) ∧
    (v ≠ 1 → tagfd_masterOpen v = (v, -EBUSY)) := by
  constructor
  · rintro rfl
    norm_num [tagfd_masterOpen]
  · intro hv
    simp only [tagfd_masterOpen]
    rw [if_pos (show v - 1 ≠ 0 by omega)]
    have hvv : v - 1 + 1 = v := by omega
    rw [hvv]

/-- Each administrative event preserves the channel invariant: the
counter mirrors `1 -` the number of open sessions, which never exceeds
one. -/
theorem adminStep_inv {s s' : AdminState} (hstep : AdminStep s s')
    (ih : s.avail = 1 - (s.held : Int) ∧ s.held ≤ 1) :
    s'.avail = 1 - (s'.held : Int) ∧ s'.held ≤ 1 := by
  obtain ⟨ih1, ih2⟩ := ih
  cases hstep with
  | openOk hok =>
    have hv : s.avail = 1 := by
      by_contra hv
      rw [(tagfd_masterOpen_spec s.avail).2 hv] at hok
      norm_num [EBUSY] at hok
    refine ⟨?_, ?_⟩
    · show (tagfd_masterOpen s.avail).1 = 1 - ((s.held + 1 : Nat) : Int)
      rw [(tagfd_masterOpen_spec s.avail).1 hv]
      have h0 : s.held = 0 := by omega
      rw [h0]
      decide
    · show s.held + 1 ≤ 1
      omega
  | openBusy hbusy =>
    by_cases hv : s.avail = 1
    · rw [(tagfd_masterOpen_spec s.avail).1 hv] at hbusy
      exact absurd rfl hbusy
    · refine ⟨?_, ih2⟩
      show (tagfd_masterOpen s.avail).1 = 1 - (s.held : Int)
      rw [(tagfd_masterOpen_spec s.avail).2 hv]
      exact ih1
  | close hheld =>
    refine ⟨?_, ?_⟩
    · show tagfd_masterRelease s.avail = 1 - ((s.held - 1 : Nat) : Int)
      simp only [tagfd_masterRelease]
      omega
    · show s.held - 1 ≤ 1
      omega

/-- The inductive invariant holds in every reachable state of the
administrative channel. -/
theorem adminReachable_inv (s : AdminState) (h : AdminReachable s) :
    s.avail = 1 - (s.held : Int) ∧ s.held ≤ 1 := by
  induction h with
  | refl => constructor <;> norm_num [adminInit]
  | tail _ hstep ih => exact adminStep_inv hstep ih

/-- Claim C8: in every reachable state of the administrative channel at
most one session is open; an open while the channel is held fails
`-EBUSY` and leaves the counter unchanged, an open while it is free
succeeds, and after a close of the held channel a new open succeeds. -/
theorem tagfd_admin_exclusive (s : AdminState) (h : AdminReachable s) :
    s.held ≤ 1 ∧
    (s.held = 1 →
      (tagfd_masterOpen s.avail).2 = -EBUSY ∧
      (tagfd_masterOpen s.avail).1 = s.avail) ∧
    (s.held = 0 → (tagfd_masterOpen s.avail).2 = 0) ∧
    (s.held = 1 → (tagfd_masterOpen (tagfd_masterRelease s.avail)).2 = 0) := by
  obtain ⟨h1, h2⟩ := adminReachable_inv s h
  refine ⟨h2, fun hh => ?_, fun hh => ?_, fun hh => ?_⟩
  · have hv : s.avail ≠ 1 := by omega
    rw [(tagfd_masterOpen_spec s.avail).2 hv]
    exact ⟨rfl, rfl⟩
  · have hv : s.avail = 1 := by omega
    rw [(tagfd_masterOpen_spec s.avail).1 hv]
  · have hv : tagfd_masterRelease s.avail = 1 := by
      simp only [tagfd_masterRelease]
      omega
    rw [(tagfd_masterOpen_spec (tagfd_masterRelease s.avail)).1 hv]

/-- Claim C8 witness: in the reachable state after one successful open
(counter 0, one session), a second open fails `-EBUSY` and an open after
the close succeeds. -/
theorem tagfd_admin_exclusive_example :
    (tagfd_masterOpen (0 : Int)).2 = -EBUSY ∧
    (tagfd_masterOpen (tagfd_masterRelease (0 : Int))).2 = 0 := by
  have hstep := AdminStep.openOk adminInit
    (by norm_num [tagfd_masterOpen, adminInit])
  have hreach : AdminReachable { avail := 0, held := 1 } :=
    Relation.ReflTransGen.single (by exact hstep)
  have h := tagfd_admin_exclusive _ hreach
  exact ⟨(h.2.1 rfl).1, h.2.2.2 rfl⟩

/-- Case analysis of `tagfd_masterWrite`: either it fails with one of
the `CreateError` exits and leaves the registry unchanged, or it
succeeds, returns `sizeof(struct tag_config)`, and appends exactly the
freshly initialized context `newCtx`. -/
theorem tagfd_masterWrite_cases (st : ModuleState)
    (tv_sec tv_nsec count : Nat) (transfer : Option tag_config) :
    (∃ e : CreateError,
      tagfd_masterWrite st tv_sec tv_nsec count transfer = (.error e, st)) ∨
    ∃ econf0, transfer = some econf0 ∧
      tagfd_masterWrite st tv_sec tv_nsec count transfer =
        (.ok sizeof_tag_config,
         { st with gl_tags := st.gl_tags ++ [newCtx tv_sec tv_nsec econf0] }) := by
  by_cases h1 : count < sizeof_tag_config
  · exact Or.inl ⟨.countTooSmall, by rcases transfer with _ | econf0 <;>
      simp [tagfd_masterWrite, h1]⟩
  rcases transfer with _ | econf0
  · exact Or.inl ⟨.transferFault, by simp [tagfd_masterWrite, h1]⟩
  by_cases h2 : econf0.action = '+'
  case neg =>
    exact Or.inl ⟨.invalidAction, by simp [tagfd_masterWrite, h1, h2]⟩
  by_cases h3 : st.gl_tags.length = st.max_tags
  case pos =>
    exact Or.inl ⟨.capacityExhausted, by simp [tagfd_masterWrite, h1, h2, h3]⟩
  by_cases h4 : validDtype econf0.dtype
  case neg =>
    exact Or.inl ⟨.dtypeInvalid, by simp [tagfd_masterWrite, h1, h2, h3, h4]⟩
  by_cases h5 : nameLastByte (fixName econf0.name) = NUL
  case neg =>
    exact Or.inl ⟨.nameNotTerminated,
      by simp [tagfd_masterWrite, h1, h2, h3, h4, h5]⟩
  by_cases h6 : cstrlen (fixName econf0.name) = 0
  case pos =>
    exact Or.inl ⟨.nameEmpty,
      by simp [tagfd_masterWrite, h1, h2, h3, h4, h5, h6]⟩
  by_cases h7 : (cstr (fixName econf0.name)).all validNameChar
  case neg =>
    exact Or.inl ⟨.nameBadChar,
      by simp [tagfd_masterWrite, h1, h2, h3, h4, h5, h6, h7]⟩
  by_cases h8 : tagfd_isNameTaken st.gl_tags (cstr (fixName econf0.name))
      (cstrlen (fixName econf0.name))
  case pos =>
    exact Or.inl ⟨.nameTaken,
      by simp [tagfd_masterWrite, h1, h2, h3, h4, h5, h6, h7, h8]⟩
  by_cases h9 : PFX.length + (cstr (fixName econf0.name)).length = sizeof_newNameBuffer
  case pos =>
    exact Or.inl ⟨.snprintfFailed,
      by simp [tagfd_masterWrite, h1, h2, h3, h4, h5, h6, h7, h8, h9]⟩
  exact Or.inr ⟨econf0, rfl,
    by simp [tagfd_masterWrite, newCtx, h1, h2, h3, h4, h5, h6, h7, h8, h9]⟩

/-- `tagfd_write` either leaves the stored record unchanged or replaces
it with a record of strictly larger timestamp. -/
theorem tagfd_write_state_cases (cell : tag_t) (count : Nat)
    (transfer : Option tag_t) :
    (tagfd_write cell count transfer).2 = cell ∨
    cell.timestamp < (tagfd_write cell count transfer).2.timestamp := by
  rcases transfer with _ | tmp <;>
    simp only [tagfd_write] <;>
    split_ifs <;>
    first
      | exact Or.inl rfl
      | exact Or.inr (show cell.timestamp < tmp.timestamp by omega)

/-- Each module event preserves positivity of all stored timestamps. -/
theorem sysStep_tsPos {st st' : ModuleState} (hstep : SysStep st st')
    (hinv : tsPos st) : tsPos st' := by
  cases hstep with
  | admin tv_sec tv_nsec count transfer hclk =>
    rcases tagfd_masterWrite_cases st tv_sec tv_nsec count transfer with
      ⟨e, hcase⟩ | ⟨econf0, -, hcase⟩
    · rw [hcase]; exact hinv
    · rw [hcase]
      intro c hc
      rcases List.mem_append.mp hc with hc | hc
      · exact hinv c hc
      · rw [List.mem_singleton] at hc
        subst hc
        exact hclk
  | tagWrite i count transfer hi =>
    intro c hc
    rcases List.mem_or_eq_of_mem_set hc with hc | hc
    · exact hinv c hc
    · subst hc
      show 0 < (tagfd_write (st.gl_tags.get ⟨i, hi⟩).tag count transfer).2.timestamp
      rcases tagfd_write_state_cases (st.gl_tags.get ⟨i, hi⟩).tag count transfer with
        hcase | hcase
      · rw [hcase]
        exact hinv _ (List.get_mem st.gl_tags i hi)
      · exact lt_of_le_of_lt (Nat.zero_le _) hcase

/-- In every reachable registry state every live tag's stored timestamp
is strictly positive (the clock is nonzero at each creation, and each
accepted write strictly increases the timestamp). -/
theorem sysReachable_tsPos (st : ModuleState) (h : SysReachable st) :
    tsPos st := by
  obtain ⟨m, hr⟩ := h
  induction hr with
  | refl => intro c hc; simp [initState] at hc
  | tail _ hstep ih => exact sysStep_tsPos hstep ih

/-- Claim C10: in every reachable state (with nonzero creation clocks)
every live tag's stored timestamp is strictly positive, so a freshly
opened session (`ts_lastRead = 0`) finds its marker different from the
stored timestamp: its first read with an adequate buffer returns the
current record immediately — it neither blocks nor returns `-EAGAIN`. -/
theorem tagfd_fresh_session_first_read (st : ModuleState)
    (h : SysReachable st) (ctx : tag_ctx) (hmem : ctx ∈ st.gl_tags)
    (count : Nat) (hcount : sizeof_tag_t ≤ count) (nonblocking : Bool) :
    0 < ctx.tag.timestamp ∧
    tagfd_read ctx.tag tagfd_open_ts_lastRead count nonblocking true =
      (.ok ctx.tag sizeof_tag_t, ctx.tag.timestamp) := by
  have hpos := sysReachable_tsPos st h ctx hmem
  refine ⟨hpos, ?_⟩
  simp only [tagfd_read, tagfd_open_ts_lastRead]
  rw [if_neg (Nat.not_lt.mpr hcount), if_neg (by omega)]
  simp

/-- Claim C10 witness: in the reachable registry holding exactly the tag
created as `x` (timestamp 1000), a freshly opened nonblocking session
reads the record immediately. -/
theorem tagfd_fresh_session_first_read_example :
    tagfd_read ctxX.tag tagfd_open_ts_lastRead sizeof_tag_t true true =
      (.ok ctxX.tag sizeof_tag_t, ctxX.tag.timestamp) := by
  have hreach : SysReachable st1 :=
    ⟨64, Relation.ReflTransGen.single
      (SysStep.admin (initState 64) 1 0 sizeof_tag_config (some reqX)
        (by decide))⟩
  have hmem : ctxX ∈ st1.gl_tags := by decide
  exact (tagfd_fresh_session_first_read st1 hreach ctxX hmem sizeof_tag_t
    (le_refl _) true).2

end Tagfd
